import Mathlib

/-
Verification of the configuration schema and persistence layer of the
dreambooth extension (dreambooth/dataclasses/training_config.py).

The embedding models JSON scalar values, the flat configuration record
as an ordered association list from attribute names to values, and the
load/save/migration functions of TrainingConfig as pure Lean functions.
External collaborators that are not part of the sources
(list_attention, get_scheduler_names, the Concept dataclass and the
BaseConfig base class) are represented as parameters or, where the spec
describes them, as definitions modelled from the spec.
-/

/-- JSON-style scalar values as produced by json.load: null, booleans,
numbers (modelled as rationals, covering the int and float literals of the
schema) and strings.  Container values (the concepts list) are carried by
the vList constructor. -/
inductive Value where
  | vNull : Value
  | vBool : Bool → Value
  | vNum : ℚ → Value
  | vStr : String → Value
  | vList : List Value → Value

/-- Python equality on values: True == 1 and False == 0 hold across the
bool/number divide, strings compare structurally, and lists compare
elementwise.  This mirrors the == and in operators used by
validate_param and load_params. -/
def pyEq : Value → Value → Bool
  | .vNull, .vNull => true
  | .vBool a, .vBool b => a == b
  | .vBool a, .vNum q => (if a then (1 : ℚ) else 0) == q
  | .vNum q, .vBool b => q == (if b then (1 : ℚ) else 0)
  | .vNum a, .vNum b => a == b
  | .vStr a, .vStr b => a == b
  | .vList a, .vList b => pyEqList a b
  | _, _ => false
where
  /-- Elementwise Python equality of two lists of values. -/
  pyEqList : List Value → List Value → Bool
  | [], [] => true
  | a :: as, b :: bs => pyEq a b && pyEqList as bs
  | _, _ => false

/-- Python membership value in listOfStrings, as used by
value not in schedulers in load_params. -/
def pyMem (v : Value) (l : List String) : Bool :=
  l.any (fun s => pyEq v (.vStr s))

/-- Does the character list start with the given pattern. -/
def strStarts : List Char → List Char → Bool
  | _, [] => true
  | [], _ :: _ => false
  | c :: cs, p :: ps => c == p && strStarts cs ps

/-- Does the pattern occur as a contiguous substring of the character
list; models the Python in operator on strings. -/
def strHasSub (pat : List Char) : List Char → Bool
  | [] => strStarts [] pat
  | c :: cs => strStarts (c :: cs) pat || strHasSub pat cs

/-- Python substring containment s2 in s1. -/
def strContains (s pat : String) : Bool :=
  strHasSub pat.data s.data

/-- Replace every non-overlapping occurrence of pat (scanning left to
right) by repl; models Python str.replace.  The fuel argument (at least
the length of the scanned list) keeps the recursion structural so that
the function evaluates inside the kernel. -/
def replaceSubFuel (pat repl : List Char) : Nat → List Char → List Char
  | _, [] => []
  | 0, l => l
  | fuel + 1, c :: cs =>
    if pat ≠ [] && strStarts (c :: cs) pat then
      repl ++ replaceSubFuel pat repl fuel (cs.drop (pat.length - 1))
    else
      c :: replaceSubFuel pat repl fuel cs

/-- Replace with the fuel instantiated to the list length, which a
nonempty pattern can never exhaust. -/
def replaceSub (pat repl l : List Char) : List Char :=
  replaceSubFuel pat repl l.length l

/-- Python str.replace on strings. -/
def pyReplace (s pat repl : String) : String :=
  String.mk (replaceSub pat.data repl.data s.data)

/-- Python str.lower (restricted to ASCII case folding). -/
def strLower (s : String) : String :=
  String.mk (s.data.map Char.toLower)

/-- os.path.join for the posix separator, for the forms used in the
sources (relative second component). -/
def os_path_join (a b : String) : String :=
  a ++ "/" ++ b

/-- Source: def sanitize_name(name): return "".join(x for x in name if
(x.isalnum() or x in "._- ")). -/
def sanitize_name (name : String) : String :=
  String.mk (name.data.filter (fun x => x.isAlphanum || "._- ".data.contains x))

/-- The configuration object: an ordered association list from attribute
names to values, mirroring self.__dict__ of a TrainingConfig instance. -/
abbrev Config := List (String × Value)

/-- The attribute names of a configuration. -/
def keys (c : Config) : List String :=
  c.map Prod.fst

/-- Python hasattr on the configuration object. -/
def hasattr (c : Config) (k : String) : Bool :=
  c.any (fun p => p.1 == k)

/-- Python getattr: the value stored under the first matching key. -/
def getattr (c : Config) (k : String) : Option Value :=
  (c.find? (fun p => p.1 == k)).map Prod.snd

/-- Python setattr: overwrite the value of an existing attribute in
place, or append a fresh attribute when the name is not yet present. -/
def setattr (c : Config) (k : String) (v : Value) : Config :=
  if hasattr c k then
    c.map (fun p => if p.1 == k then (p.1, v) else p)
  else
    c ++ [(k, v)]

/-- One value-migration rule of the replaced_params table: a list of old
values and the new value that replaces each of them. -/
structure ValueRule where
  old : List Value
  new : Value

/-- One entry of the replaced_params table: an optional key rename and
the value-migration rules (empty when the source dict has no "values"
entry). -/
structure Replacement where
  new_key : Option String
  values : List ValueRule

/-- The static replaced_params table of TrainingConfig.validate_param,
transcribed from the source. -/
def replaced_params : List (String × Replacement) :=
  [("weight_decay", ⟨some "weight_decay", []⟩),
   ("deis_train_scheduler",
     ⟨some "noise_scheduler", [⟨[Value.vBool true], Value.vStr "DDPM"⟩]⟩),
   ("optimizer", ⟨none, [⟨[Value.vStr "8Bit Adam"], Value.vStr "8bit AdamW"⟩]⟩),
   ("save_safetensors", ⟨none, [⟨[Value.vBool false], Value.vBool true⟩]⟩)]

/-- Source: TrainingConfig.validate_param.  Looks the key up in the
static replaced_params table, applies the optional key rename, then runs
every value rule in order, replacing the value when it occurs among the
rule's old values. -/
def TrainingConfig.validate_param (key : String) (value : Value) : String × Value :=
  match replaced_params.find? (fun p => p.1 == key) with
  | none => (key, value)
  | some entry =>
    let replacement := entry.2
    let key :=
      match replacement.new_key with
      | some nk => nk
      | none => key
    let value :=
      replacement.values.foldl
        (fun value rule => if rule.old.any (fun o => pyEq value o) then rule.new else value)
        value
    (key, value)

/-- The default field set of TrainingConfig, part 1 of 4 (the list is
split into chunks to keep elaboration cheap). -/
def default_config_a : Config :=
  [("train_mode", .vStr "Default"),
   ("controlnet_model_name", .vStr ""),
   ("num_train_epochs", .vNum 100),
   ("train_batch_size", .vNum 1),
   ("resolution", .vNum 512),
   ("gradient_accumulation_steps", .vNum 1),
   ("sample_batch_size", .vNum 1),
   ("pretrained_vae_name_or_path", .vStr ""),
   ("noise_scheduler", .vStr "DDPM"),
   ("train_ema", .vBool false),
   ("train_lora", .vBool false),
   ("train_oft", .vBool false),
   ("concepts_list", .vList []),
   ("disable_class_matching", .vBool false),
   ("train_data_dir", .vNull),
   ("use_dir_tags", .vBool false),
   ("attention", .vStr "xformers"),
   ("mixed_precision", .vStr "no"),
   ("max_grad_norm", .vNum 1.0),
   ("gradient_checkpointing", .vBool true),
   ("gradient_set_to_none", .vBool true),
   ("cache_latents", .vBool true),
   ("cpu_only", .vBool false),
   ("optimizer", .vStr "8bit AdamW")]

/-- The default field set of TrainingConfig, part 2 of 4. -/
def default_config_b : Config :=
  [("adam_beta1", .vNum 0.9),
   ("adam_beta2", .vNum 0.999),
   ("adam_epsilon", .vNum 0.00000001),
   ("adam_weight_decay", .vNum 0.01),
   ("lr_scheduler", .vStr "constant_with_warmup"),
   ("lr_warmup_steps", .vNum 500),
   ("learning_rate", .vNum 0.000005),
   ("learning_rate_txt", .vNum 0.000005),
   ("learning_rate_lora", .vNum 0.00005),
   ("learning_rate_lora_txt", .vNum 0.00005),
   ("learning_rate_min", .vNum 0.000001),
   ("lr_factor", .vNum 0.5),
   ("lr_num_cycles", .vNum 1),
   ("lr_power", .vNum 1.0),
   ("lr_scale_pos", .vNum 0.5),
   ("stop_text_encoder", .vNum 1.0),
   ("clip_skip", .vNum 1),
   ("tenc_weight_decay", .vNum 0.01),
   ("tenc_grad_clip_norm", .vNum 0.00),
   ("train_unfrozen", .vBool true),
   ("freeze_clip_normalization", .vBool false),
   ("lora_model_name", .vStr ""),
   ("lora_txt_rank", .vNum 4),
   ("lora_txt_weight", .vNum 1.0)]

/-- The default field set of TrainingConfig, part 3 of 4. -/
def default_config_c : Config :=
  [("lora_unet_rank", .vNum 4),
   ("lora_weight", .vNum 1.0),
   ("oft_model_name", .vStr ""),
   ("oft_eps", .vNum 0.1),
   ("oft_rank", .vNum 4),
   ("oft_coft", .vBool true),
   ("prior_loss_scale", .vBool false),
   ("prior_loss_target", .vNum 100),
   ("prior_loss_weight", .vNum 0.75),
   ("prior_loss_weight_min", .vNum 0.1),
   ("proportion_empty_prompts", .vNum 0),
   ("split_loss", .vBool true),
   ("train_unet", .vBool true),
   ("epoch", .vNum 0),
   ("lifetime_revision", .vNum 0),
   ("model_dir", .vStr ""),
   ("model_name", .vStr ""),
   ("model_path", .vStr ""),
   ("pretrained_model_name_or_path", .vStr ""),
   ("revision", .vNum 0),
   ("scheduler", .vStr "ddim"),
   ("src", .vStr ""),
   ("v2", .vBool false),
   ("dynamic_img_norm", .vBool false)]

/-- The default field set of TrainingConfig, part 4 of 4. -/
def default_config_d : Config :=
  [("hflip", .vBool false),
   ("input_pertubation", .vNum 0.1),
   ("offset_noise", .vNum 0),
   ("max_token_length", .vNum 75),
   ("pad_tokens", .vBool true),
   ("shuffle_tags", .vBool true),
   ("strict_tokens", .vBool false),
   ("checkpoint", .vNull),
   ("checkpoints_total_limit", .vNum 0),
   ("max_train_samples", .vNull),
   ("disable_logging", .vBool false),
   ("graph_smoothing", .vNum 0.1),
   ("num_save_samples", .vNum 4),
   ("sanity_prompt", .vStr ""),
   ("save_on_cancel", .vBool true),
   ("save_embedding_every", .vNum 25),
   ("save_preview_every", .vNum 5),
   ("seed", .vNum 420420),
   ("simulate_training", .vBool false),
   ("snr_gamma", .vNum 5.0),
   ("tomesd", .vBool true)]

/-- The default field set of TrainingConfig: every pydantic field of the
class body in declaration order with its default value. -/
def default_config : Config :=
  default_config_a ++ default_config_b ++ default_config_c ++ default_config_d

/-- The external enumeration helpers called by load_params.
list_attention and get_scheduler_names live in dreambooth.utils, outside
the sources under verification, so their return values are parameters of
the embedding. -/
structure Externals where
  list_attention : List String
  get_scheduler_names : List String

/-- The key preprocessing of load_params: if "db_" in key, key =
key.replace("db_", ""). -/
def stripDbKey (key : String) : String :=
  if strContains key "db_" then pyReplace key "db_" "" else key

/-- Python value.lower() as applied in the scheduler branch of
load_params; the source only reaches it with string values (a non-string
value would raise AttributeError there). -/
def valueLower : Value → String
  | .vStr s => strLower s
  | _ => ""

/-- The flash_attention replacement at the top of the loop body of
load_params: when the stripped key is "attention" and the value equals
"flash_attention", the value becomes the last entry of list_attention().
-/
def attention_fix (ext : Externals) (key : String) (value : Value) : Value :=
  if key == "attention" && pyEq value (.vStr "flash_attention") then
    match ext.list_attention.getLast? with
    | some a => Value.vStr a
    | none => value
  else value

/-- The scheduler-name swap of the loop body of load_params: when the
stripped key is "scheduler" and the value is not among
get_scheduler_names(), sched_swap is set and the value is replaced by the
first scheduler name containing it case-insensitively (unchanged when
none does). -/
def scheduler_fix (ext : Externals) (key : String) (sched_swap : Bool)
    (value : Value) : Bool × Value :=
  if key == "scheduler" then
    if pyMem value ext.get_scheduler_names then
      (sched_swap, value)
    else
      (true,
       match ext.get_scheduler_names.find?
           (fun sched => strContains (strLower sched) (valueLower value)) with
       | some sched => Value.vStr sched
       | none => value)
  else (sched_swap, value)

/-- The body of the per-item loop of TrainingConfig.load_params: key
stripping, the flash_attention replacement, the scheduler-name swap
(which records sched_swap), then the hasattr-guarded migration and
assignment. -/
def TrainingConfig.load_params_step (ext : Externals) (acc : Config × Bool)
    (kv : String × Value) : Config × Bool :=
  let key := stripDbKey kv.1
  let value := attention_fix ext key kv.2
  let sv := scheduler_fix ext key acc.2 value
  if hasattr acc.1 key then
    let migrated := TrainingConfig.validate_param key sv.2
    (setattr acc.1 migrated.1 migrated.2, sv.1)
  else
    (acc.1, sv.1)

/-- Source: TrainingConfig.load_params.  Iterates over the items of the
params dict, applying the per-item loop body; the returned boolean is
the final sched_swap flag, which decides whether self.save() runs before
returning. -/
def TrainingConfig.load_params (ext : Externals) (self : Config)
    (params_dict : List (String × Value)) : Config × Bool :=
  params_dict.foldl (TrainingConfig.load_params_step ext) (self, false)

/-- A sample instantiation of the external enumeration helpers, used for
concrete evaluations. -/
def sample_ext : Externals :=
  ⟨["xformers"], ["UniPC"]⟩

/-- A configuration whose noise_scheduler was previously set to DDIM. -/
def c2_cfg : Config :=
  setattr default_config "noise_scheduler" (.vStr "DDIM")

/-- The string stored under an attribute, or the empty string when the
attribute is missing or not a string. -/
def getattr_str (self : Config) (k : String) : String :=
  match getattr self k with
  | some (.vStr s) => s
  | _ => ""

/-- The revision number rendered for the backup file name, as the
f-string db_config_{self.revision}.json renders the integer revision
field. -/
def revision_str (self : Config) : String :=
  match getattr self "revision" with
  | some (.vNum q) => toString q.num
  | _ => ""

/-- Source: TrainingConfig.save (modelled for os.name == "posix").  The
model returns the path written and the dict dumped: self.__dict__ after
the separator normalization has been written back to self.model_dir.
The json.dump call itself and the backups directory creation are file
system effects outside the model. -/
def TrainingConfig.save (self : Config) (backup : Bool) : String × Config :=
  let models_path := getattr_str self "model_dir"
  let models_path :=
    if strContains models_path "\\" then pyReplace models_path "\\" "/" else models_path
  let self := setattr self "model_dir" (.vStr models_path)
  let config_file :=
    if backup then
      os_path_join (os_path_join models_path "backups")
        ("db_config_" ++ revision_str self ++ ".json")
    else
      os_path_join models_path "db_config.json"
  (config_file, self)

/-- The path opened by the module-level from_file loader: note the file
name it uses is train_config.json. -/
def from_file_config_path (models_path model_name : String) : String :=
  os_path_join (os_path_join models_path model_name) "train_config.json"

/-- Source: TrainingConfig.__init__ with a model_name keyword: sanitizes
the name, clears lora_model_name when train_lora is unset (both hold on
the default field set), then stores model_name, model_dir =
models_path/model_name and pretrained_model_name_or_path =
model_dir/working.  The models_path parameter stands for the resolution
through kwargs or the shared paths; the working-directory creation is a
file system effect outside the model. -/
def TrainingConfig.init (models_path model_name : String) : Config :=
  let model_name := sanitize_name model_name
  let model_dir := os_path_join models_path model_name
  let working_dir := os_path_join model_dir "working"
  setattr (setattr (setattr (setattr default_config
    "lora_model_name" (.vStr ""))
    "model_name" (.vStr model_name))
    "model_dir" (.vStr model_dir))
    "pretrained_model_name_or_path" (.vStr working_dir)

/-- Source: the module-level from_file.  The file system and json.load
are abstracted as fallible functions fs and parse; the returned list
collects the messages printed by the except branch.  The list-valued
model_name unwrapping is specialised to plain strings. -/
def from_file (fs : String → Except String String)
    (parse : String → Except String Config) (ext : Externals)
    (models_path model_name : String) : Option Config × List String :=
  if model_name == "" then (none, [])
  else
    match fs (from_file_config_path models_path model_name) with
    | .error e => (none, ["Exception loading config: " ++ e])
    | .ok contents =>
      match parse contents with
      | .error e => (none, ["Exception loading config: " ++ e])
      | .ok config_dict =>
        (some (TrainingConfig.load_params ext
          (TrainingConfig.init models_path model_name) config_dict).1, [])

/-- Source: TrainingConfig.load_from_file.  base_load stands for the
super().load_from_file call (BaseConfig is not among the sources; the
spec describes loading as reading the JSON file and then running the
key/value loader, so the base step is an abstract transformation of
self executed inside the same try block). -/
def TrainingConfig.load_from_file (fs : String → Except String String)
    (parse : String → Except String Config) (ext : Externals)
    (base_load : Config → Config) (self : Config) (model_dir : String) :
    Option Config × List String :=
  match fs (os_path_join model_dir "db_config.json") with
  | .error e => (none, ["Exception loading config: " ++ e])
  | .ok contents =>
    match parse contents with
    | .error e => (none, ["Exception loading config: " ++ e])
    | .ok config_dict =>
      (some (TrainingConfig.load_params ext (base_load self) config_dict).1, [])

/-- Source: TrainingConfig.refresh.  Reads
models_path/self.model_name/db_config.json and reloads self through
load_params; on any error it prints and returns None (the Python
function returns None on success as well, its effect being the mutation
of self, which the model returns in the some case). -/
def TrainingConfig.refresh (fs : String → Except String String)
    (parse : String → Except String Config) (ext : Externals)
    (models_path : String) (self : Config) : Option Config × List String :=
  match fs (os_path_join (os_path_join models_path (getattr_str self "model_name"))
      "db_config.json") with
  | .error e => (none, ["Exception loading config: " ++ e])
  | .ok contents =>
    match parse contents with
    | .error e => (none, ["Exception loading config: " ++ e])
    | .ok config_dict =>
      (some (TrainingConfig.load_params ext self config_dict).1, [])

/-- A configuration whose model directory is /models/dreambooth/sample,
as the constructor produces for model_name "sample". -/
def c8_cfg : Config :=
  setattr default_config "model_dir" (.vStr "/models/dreambooth/sample")

/-- Modelled from the spec: the Concept dataclass
(dreambooth/dataclasses/db_concept.py is not among the sources; the name
Concept itself is taken by Mathlib).  The
spec describes a Concept as a per-training-subject descriptor carrying
an instance data directory, a class data directory and prompts, with a
validity predicate; the fields the concepts() method inspects are
modelled, further prompt fields being irrelevant to it. -/
structure DbConcept where
  instance_data_dir : String
  class_data_dir : String
  is_valid : Bool

/-- Modelled from the spec: the Concept construction and file loading
used by concepts().  mkConcept stands for Concept(input_dict=d),
emptyConcept for Concept(None), and fileConcepts for
concepts_from_file(path), none of which is among the sources; the claim
about concept counts holds or fails uniformly in them. -/
structure ConceptEnv where
  mkConcept : List (String × Value) → DbConcept
  emptyConcept : DbConcept
  fileConcepts : String → List (List (String × Value))

/-- Source: TrainingConfig.concepts.  The loop collects the valid
concepts (assigning a default class_data_dir per valid index), then
computes missing = len(concepts) - required and extends the list with
missing copies of Concept(None) when missing is positive.  The
train_mode, concepts_path, model_dir and concepts_list attributes of
self are passed explicitly. -/
def TrainingConfig.concepts (env : ConceptEnv) (train_mode concepts_path model_dir : String)
    (concepts_list : List (List (String × Value))) (required : Int) : List DbConcept :=
  let concepts_list :=
    if train_mode == "db" && concepts_path != "" && required == -1 then
      env.fileConcepts concepts_path
    else
      concepts_list
  let required := if required == -1 then (concepts_list.length : Int) else required
  let step := fun (acc : List DbConcept × Nat) concept_dict =>
    let concept := env.mkConcept concept_dict
    if concept.is_valid then
      let concept :=
        if concept.class_data_dir == "" then
          { instance_data_dir := concept.instance_data_dir,
            class_data_dir := os_path_join model_dir ("classifiers_" ++ toString acc.2),
            is_valid := concept.is_valid }
        else concept
      (acc.1 ++ [concept], acc.2 + 1)
    else acc
  let concepts := (concepts_list.foldl step ([], 0)).1
  let missing : Int := (concepts.length : Int) - required
  if missing > 0 then concepts ++ List.replicate missing.toNat env.emptyConcept else concepts

/-- A concept environment where every dict yields a valid concept with a
nonempty class directory. -/
def c1_env : ConceptEnv :=
  ⟨fun _ => ⟨"/data/in", "/data/class", true⟩, ⟨"", "", false⟩, fun _ => []⟩

/-- Helper: for a key distinct from the four table keys the lookup in
replaced_params fails. -/
theorem replaced_params_find_none (k : String)
    (h1 : k ≠ "weight_decay") (h2 : k ≠ "deis_train_scheduler")
    (h3 : k ≠ "optimizer") (h4 : k ≠ "save_safetensors") :
    replaced_params.find? (fun p => p.1 == k) = none := by
  have e1 : (("weight_decay" : String) == k) = false := beq_eq_false_iff_ne.mpr (Ne.symm h1)
  have e2 : (("deis_train_scheduler" : String) == k) = false := beq_eq_false_iff_ne.mpr (Ne.symm h2)
  have e3 : (("optimizer" : String) == k) = false := beq_eq_false_iff_ne.mpr (Ne.symm h3)
  have e4 : (("save_safetensors" : String) == k) = false := beq_eq_false_iff_ne.mpr (Ne.symm h4)
  simp [replaced_params, List.find?, e1, e2, e3, e4]

/-- Claim C3: the migration shim is idempotent: validate_param applied to
its own output returns that output unchanged. -/
theorem validate_param_idempotent (k : String) (v : Value) :
    TrainingConfig.validate_param
        (TrainingConfig.validate_param k v).1 (TrainingConfig.validate_param k v).2
      = TrainingConfig.validate_param k v := by
  by_cases h1 : k = "weight_decay"
  · subst h1; rfl
  by_cases h2 : k = "deis_train_scheduler"
  · subst h2; rfl
  by_cases h3 : k = "optimizer"
  · subst h3
    have e : TrainingConfig.validate_param "optimizer" v
        = ("optimizer", if pyEq v (.vStr "8Bit Adam") = true then Value.vStr "8bit AdamW" else v) := by
      simp [TrainingConfig.validate_param, replaced_params, List.find?]
    rw [e]
    by_cases hv : pyEq v (.vStr "8Bit Adam") = true
    · rw [if_pos hv]; rfl
    · rw [if_neg hv]; rw [e, if_neg hv]
  by_cases h4 : k = "save_safetensors"
  · subst h4
    have e : TrainingConfig.validate_param "save_safetensors" v
        = ("save_safetensors", if pyEq v (.vBool false) = true then Value.vBool true else v) := by
      simp [TrainingConfig.validate_param, replaced_params, List.find?]
    rw [e]
    by_cases hv : pyEq v (.vBool false) = true
    · rw [if_pos hv]; rfl
    · rw [if_neg hv]; rw [e, if_neg hv]
  · have e : TrainingConfig.validate_param k v = (k, v) := by
      unfold TrainingConfig.validate_param
      rw [replaced_params_find_none k h1 h2 h3 h4]
    rw [e]; exact e

/-- Helper: evaluation of validate_param at the optimizer key. -/
theorem validate_param_optimizer_eval (v : Value) :
    TrainingConfig.validate_param "optimizer" v
      = ("optimizer", if pyEq v (.vStr "8Bit Adam") = true then Value.vStr "8bit AdamW" else v) := by
  simp [TrainingConfig.validate_param, replaced_params, List.find?]

/-- Helper: evaluation of validate_param at the save_safetensors key. -/
theorem validate_param_save_safetensors_eval (v : Value) :
    TrainingConfig.validate_param "save_safetensors" v
      = ("save_safetensors", if pyEq v (.vBool false) = true then Value.vBool true else v) := by
  simp [TrainingConfig.validate_param, replaced_params, List.find?]

/-- Helper: evaluation of validate_param at the deis_train_scheduler key. -/
theorem validate_param_deis_eval (v : Value) :
    TrainingConfig.validate_param "deis_train_scheduler" v
      = ("noise_scheduler", if pyEq v (.vBool true) = true then Value.vStr "DDPM" else v) := by
  simp [TrainingConfig.validate_param, replaced_params, List.find?]

/-- Helper: validate_param is the identity outside the migration table. -/
theorem validate_param_unmapped (k : String) (v : Value)
    (h1 : k ≠ "weight_decay") (h2 : k ≠ "deis_train_scheduler")
    (h3 : k ≠ "optimizer") (h4 : k ≠ "save_safetensors") :
    TrainingConfig.validate_param k v = (k, v) := by
  unfold TrainingConfig.validate_param
  rw [replaced_params_find_none k h1 h2 h3 h4]

/-- Claim C5: keys outside the migration table pass through validate_param
unchanged, and for a mapped key whose value matches none of the listed old
values the value passes through unchanged. -/
theorem validate_param_passthrough :
    (∀ k v, k ≠ "weight_decay" → k ≠ "deis_train_scheduler" → k ≠ "optimizer" →
      k ≠ "save_safetensors" → TrainingConfig.validate_param k v = (k, v))
    ∧ (∀ k r v, (k, r) ∈ replaced_params →
        (∀ rule ∈ r.values, (rule.old.any fun o => pyEq v o) = false) →
        (TrainingConfig.validate_param k v).2 = v) := by
  constructor
  · exact fun k v h1 h2 h3 h4 => validate_param_unmapped k v h1 h2 h3 h4
  · intro k r v hmem hrules
    simp only [replaced_params, List.mem_cons, List.not_mem_nil, or_false,
      Prod.mk.injEq] at hmem
    rcases hmem with ⟨hk, hr⟩ | ⟨hk, hr⟩ | ⟨hk, hr⟩ | ⟨hk, hr⟩ <;> subst hk <;> subst hr
    · rfl
    · have h := hrules ⟨[Value.vBool true], Value.vStr "DDPM"⟩ (by simp)
      simp only [List.any_cons, List.any_nil, Bool.or_false] at h
      rw [validate_param_deis_eval, h]; rfl
    · have h := hrules ⟨[Value.vStr "8Bit Adam"], Value.vStr "8bit AdamW"⟩ (by simp)
      simp only [List.any_cons, List.any_nil, Bool.or_false] at h
      rw [validate_param_optimizer_eval, h]; rfl
    · have h := hrules ⟨[Value.vBool false], Value.vBool true⟩ (by simp)
      simp only [List.any_cons, List.any_nil, Bool.or_false] at h
      rw [validate_param_save_safetensors_eval, h]; rfl

/-- Witness for C5 at concrete inputs: an unmapped key passes through, and
the mapped optimizer key keeps a value that is not a listed old value. -/
theorem validate_param_passthrough_witness :
    TrainingConfig.validate_param "frog" (.vNum 3) = ("frog", .vNum 3)
    ∧ (TrainingConfig.validate_param "optimizer" (.vStr "adamw")).2 = .vStr "adamw" := by
  constructor
  · exact validate_param_passthrough.1 "frog" _ (by decide) (by decide) (by decide) (by decide)
  · refine validate_param_passthrough.2 "optimizer"
      ⟨none, [⟨[Value.vStr "8Bit Adam"], Value.vStr "8bit AdamW"⟩]⟩ _ (by simp [replaced_params]) ?_
    intro rule hr
    rw [List.mem_singleton] at hr
    subst hr
    rfl

/-- Claim C2 (refuted): loading a dict containing the legacy key
deis_train_scheduler set to True leaves the configuration completely
unchanged, because hasattr(self, "deis_train_scheduler") is False before
validate_param is ever consulted; noise_scheduler keeps its prior value
DDIM instead of being set to DDPM. -/
theorem deis_migration_dead :
    TrainingConfig.load_params sample_ext c2_cfg [("deis_train_scheduler", Value.vBool true)]
      = (c2_cfg, false)
    ∧ getattr c2_cfg "noise_scheduler" = some (.vStr "DDIM")
    ∧ TrainingConfig.validate_param "deis_train_scheduler" (Value.vBool true)
        = ("noise_scheduler", .vStr "DDPM")
    ∧ hasattr c2_cfg "deis_train_scheduler" = false := ⟨rfl, rfl, rfl, rfl⟩

/-- Helper: attention_fix is the identity for keys other than
"attention". -/
theorem attention_fix_ne (ext : Externals) (key : String) (v : Value)
    (h : key ≠ "attention") : attention_fix ext key v = v := by
  simp [attention_fix, beq_eq_false_iff_ne.mpr h]

/-- Helper: scheduler_fix is the identity for keys other than
"scheduler". -/
theorem scheduler_fix_ne (ext : Externals) (key : String) (b : Bool) (v : Value)
    (h : key ≠ "scheduler") : scheduler_fix ext key b v = (b, v) := by
  simp [scheduler_fix, beq_eq_false_iff_ne.mpr h]

/-- Helper: the flag component of scheduler_fix. -/
theorem scheduler_fix_flag (ext : Externals) (key : String) (b : Bool) (v : Value) :
    (scheduler_fix ext key b v).1
      = (b || (key == "scheduler" && !(pyMem v ext.get_scheduler_names))) := by
  by_cases hk : key = "scheduler"
  · subst hk
    by_cases hm : pyMem v ext.get_scheduler_names = true
    · simp [scheduler_fix, hm]
    · simp only [Bool.not_eq_true] at hm
      simp [scheduler_fix, hm]
  · simp [scheduler_fix_ne ext key b v hk, beq_eq_false_iff_ne.mpr hk]

/-- Helper: the configuration component of the loop body. -/
theorem load_params_step_fst (ext : Externals) (c : Config) (b : Bool) (kv : String × Value) :
    (TrainingConfig.load_params_step ext (c, b) kv).1
      = (if hasattr c (stripDbKey kv.1) then
           let sv := scheduler_fix ext (stripDbKey kv.1) b (attention_fix ext (stripDbKey kv.1) kv.2)
           let migrated := TrainingConfig.validate_param (stripDbKey kv.1) sv.2
           setattr c migrated.1 migrated.2
         else c) := by
  unfold TrainingConfig.load_params_step
  dsimp only
  split <;> rfl

/-- Helper: the sched_swap flag after one loop iteration: it is set
exactly when the stripped key is "scheduler" and the incoming value is
not among the scheduler names; no other remapping touches it. -/
theorem load_params_step_flag (ext : Externals) (c : Config) (b : Bool) (kv : String × Value) :
    (TrainingConfig.load_params_step ext (c, b) kv).2
      = (b || (stripDbKey kv.1 == "scheduler" && !(pyMem kv.2 ext.get_scheduler_names))) := by
  have hsnd : (TrainingConfig.load_params_step ext (c, b) kv).2
      = (scheduler_fix ext (stripDbKey kv.1) b (attention_fix ext (stripDbKey kv.1) kv.2)).1 := by
    unfold TrainingConfig.load_params_step
    dsimp only
    split <;> rfl
  rw [hsnd, scheduler_fix_flag]
  by_cases hk : stripDbKey kv.1 = "scheduler"
  · rw [hk, attention_fix_ne ext "scheduler" kv.2 (by decide)]
  · simp [beq_eq_false_iff_ne.mpr hk]

/-- Helper: the sched_swap flag accumulated over the whole loop of
load_params. -/
theorem load_params_flag (ext : Externals) :
    ∀ (params : List (String × Value)) (c : Config) (b : Bool),
    (params.foldl (TrainingConfig.load_params_step ext) (c, b)).2
      = (b || params.any
            (fun kv => stripDbKey kv.1 == "scheduler"
              && !(pyMem kv.2 ext.get_scheduler_names))) := by
  intro params
  induction params with
  | nil => intro c b; simp
  | cons kv rest ih =>
    intro c b
    rw [List.foldl_cons, List.any_cons]
    have hp : TrainingConfig.load_params_step ext (c, b) kv
        = ((TrainingConfig.load_params_step ext (c, b) kv).1,
           b || (stripDbKey kv.1 == "scheduler" && !(pyMem kv.2 ext.get_scheduler_names))) := by
      rw [← load_params_step_flag ext c b kv]
    rw [hp, ih, Bool.or_assoc]

/-- Claim C6 (counterexample): loading the legacy optimizer value
"8Bit Adam" makes validate_param remap the value, yet the returned
sched_swap flag is false, so load_params does not call save(). -/
theorem optimizer_remap_no_save :
    (TrainingConfig.load_params sample_ext default_config
        [("optimizer", Value.vStr "8Bit Adam")]).2 = false
    ∧ TrainingConfig.validate_param "optimizer" (.vStr "8Bit Adam")
        = ("optimizer", .vStr "8bit AdamW") := ⟨rfl, rfl⟩

/-- Claim C6 amended: load_params calls save() if and only if some input
entry has stripped key "scheduler" with a value outside
get_scheduler_names(); remappings performed by validate_param never
trigger the save.  The string hypothesis restricts to inputs on which
the Python code completes (a non-string scheduler value raises
AttributeError at value.lower() instead of returning). -/
theorem load_params_saves_iff (ext : Externals) (cfg : Config)
    (params : List (String × Value))
    (hstr : ∀ kv ∈ params, stripDbKey kv.1 = "scheduler" → ∃ s, kv.2 = Value.vStr s) :
    (TrainingConfig.load_params ext cfg params).2 = true
      ↔ ∃ kv ∈ params, stripDbKey kv.1 = "scheduler"
          ∧ pyMem kv.2 ext.get_scheduler_names = false := by
  unfold TrainingConfig.load_params
  rw [load_params_flag]
  simp only [Bool.false_or, List.any_eq_true, Bool.and_eq_true, beq_iff_eq,
    Bool.not_eq_true']

/-- Witness for the amended C6 at a concrete input: loading a scheduler
value outside the scheduler-name list reports a save. -/
theorem load_params_saves_iff_witness :
    (∀ kv ∈ [("scheduler", Value.vStr "ddim")],
        stripDbKey kv.1 = "scheduler" → ∃ s, kv.2 = Value.vStr s)
    ∧ ((TrainingConfig.load_params sample_ext default_config
          [("scheduler", Value.vStr "ddim")]).2 = true
        ↔ ∃ kv ∈ [("scheduler", Value.vStr "ddim")],
            stripDbKey kv.1 = "scheduler"
              ∧ pyMem kv.2 sample_ext.get_scheduler_names = false) := by
  constructor
  · intro kv hkv _
    rw [List.mem_singleton] at hkv
    subst hkv
    exact ⟨"ddim", rfl⟩
  · exact load_params_saves_iff sample_ext default_config _
      (by
        intro kv hkv _
        rw [List.mem_singleton] at hkv
        subst hkv
        exact ⟨"ddim", rfl⟩)

/-- Helper: the key component of validate_param equals its input key for
every key other than deis_train_scheduler (the only entry whose rename
differs from the key itself). -/
theorem validate_param_fst (k : String) (v : Value) (h : k ≠ "deis_train_scheduler") :
    (TrainingConfig.validate_param k v).1 = k := by
  by_cases h1 : k = "weight_decay"
  · subst h1; rfl
  by_cases h3 : k = "optimizer"
  · subst h3; rw [validate_param_optimizer_eval]
  by_cases h4 : k = "save_safetensors"
  · subst h4; rw [validate_param_save_safetensors_eval]
  · rw [validate_param_unmapped k v h1 h h3 h4]

/-- Helper: hasattr only depends on the key list. -/
theorem hasattr_keys (c : Config) (k : String) :
    hasattr c k = (keys c).any (fun s => s == k) := by
  induction c with
  | nil => rfl
  | cons p rest ih =>
    unfold hasattr keys at *
    simp only [List.any_cons, List.map_cons]
    rw [← ih]

/-- Helper: updating an existing attribute preserves the key list. -/
theorem keys_setattr (c : Config) (k : String) (v : Value) (h : hasattr c k = true) :
    keys (setattr c k v) = keys c := by
  unfold setattr
  rw [if_pos h]
  unfold keys
  rw [List.map_map]
  apply List.map_congr_left
  intro p _
  simp only [Function.comp_apply]
  split <;> rfl

/-- Helper: reading an attribute other than the updated one through the
in-place update of setattr. -/
theorem getattr_map_update_ne (k j : String) (v : Value) (h : (j == k) = false) :
    ∀ c : Config,
      getattr (c.map (fun p => if p.1 == k then (p.1, v) else p)) j = getattr c j := by
  intro c
  induction c with
  | nil => rfl
  | cons p rest ih =>
    have hfst : (if (p.1 == k) = true then (p.1, v) else p).1 = p.1 := by split <;> rfl
    by_cases hpj : (p.1 == j) = true
    · have hpk : (p.1 == k) = false := by
        rw [beq_iff_eq] at hpj
        rw [hpj]
        exact h
      simp [getattr, List.find?, hpk, hpj]
    · simp only [Bool.not_eq_true] at hpj
      simp only [getattr, List.map_cons, List.find?, hfst, hpj] at *
      exact ih

/-- Helper: reading an attribute other than the appended one through the
append branch of setattr. -/
theorem getattr_append_ne (k j : String) (v : Value) (h : (j == k) = false) :
    ∀ c : Config, getattr (c ++ [(k, v)]) j = getattr c j := by
  intro c
  have hkj : (k == j) = false := by
    rw [beq_eq_false_iff_ne] at *
    exact fun e => h e.symm
  induction c with
  | nil => simp [getattr, List.find?, hkj]
  | cons p rest ih =>
    by_cases hpj : (p.1 == j) = true
    · simp [getattr, List.find?, hpj]
    · simp only [Bool.not_eq_true] at hpj
      simp only [getattr, List.cons_append, List.find?, hpj] at *
      exact ih

/-- Helper: setattr leaves every other attribute unchanged. -/
theorem getattr_setattr_ne (c : Config) (k j : String) (v : Value) (h : j ≠ k) :
    getattr (setattr c k v) j = getattr c j := by
  have hb : (j == k) = false := beq_eq_false_iff_ne.mpr h
  unfold setattr
  split
  · exact getattr_map_update_ne k j v hb c
  · exact getattr_append_ne k j v hb c

/-- Helper: when the configuration has no deis_train_scheduler attribute
(as TrainingConfig does not), one loop iteration of load_params preserves
the key list. -/
theorem load_params_step_keys (ext : Externals) (c : Config) (b : Bool)
    (kv : String × Value) (hdeis : hasattr c "deis_train_scheduler" = false) :
    keys (TrainingConfig.load_params_step ext (c, b) kv).1 = keys c := by
  rw [load_params_step_fst]
  split
  · next h =>
    dsimp only
    have hne : stripDbKey kv.1 ≠ "deis_train_scheduler" := by
      intro e
      rw [e, hdeis] at h
      exact Bool.false_ne_true h
    rw [validate_param_fst _ _ hne]
    exact keys_setattr c _ _ h
  · rfl

/-- Helper: one loop iteration of load_params leaves every attribute not
named by the stripped input key unchanged. -/
theorem load_params_step_getattr_ne (ext : Externals) (c : Config) (b : Bool)
    (kv : String × Value) (j : String) (hj : stripDbKey kv.1 ≠ j)
    (hdeis : hasattr c "deis_train_scheduler" = false) :
    getattr (TrainingConfig.load_params_step ext (c, b) kv).1 j = getattr c j := by
  rw [load_params_step_fst]
  split
  · next h =>
    dsimp only
    have hne : stripDbKey kv.1 ≠ "deis_train_scheduler" := by
      intro e
      rw [e, hdeis] at h
      exact Bool.false_ne_true h
    rw [validate_param_fst _ _ hne]
    exact getattr_setattr_ne c _ j _ (fun e => hj e.symm)
  · rfl

/-- Helper: frame property of the whole loop of load_params, by induction
over the input items. -/
theorem load_params_fold_frame (ext : Externals) :
    ∀ (params : List (String × Value)) (c : Config) (b : Bool),
      hasattr c "deis_train_scheduler" = false →
      keys (params.foldl (TrainingConfig.load_params_step ext) (c, b)).1 = keys c
      ∧ ∀ j, (∀ kv ∈ params, stripDbKey kv.1 ≠ j) →
          getattr (params.foldl (TrainingConfig.load_params_step ext) (c, b)).1 j
            = getattr c j := by
  intro params
  induction params with
  | nil => exact fun c b _ => ⟨rfl, fun j _ => rfl⟩
  | cons kv rest ih =>
    intro c b hdeis
    rw [List.foldl_cons]
    have hkeys1 := load_params_step_keys ext c b kv hdeis
    have hdeis1 : hasattr (TrainingConfig.load_params_step ext (c, b) kv).1
        "deis_train_scheduler" = false := by
      rw [hasattr_keys, hkeys1, ← hasattr_keys]
      exact hdeis
    have hpair : TrainingConfig.load_params_step ext (c, b) kv
        = ((TrainingConfig.load_params_step ext (c, b) kv).1,
           (TrainingConfig.load_params_step ext (c, b) kv).2) := rfl
    rw [hpair]
    obtain ⟨ihkeys, ihget⟩ := ih (TrainingConfig.load_params_step ext (c, b) kv).1
      (TrainingConfig.load_params_step ext (c, b) kv).2 hdeis1
    constructor
    · rw [ihkeys, hkeys1]
    · intro j hj
      rw [ihget j (fun kv2 h2 => hj kv2 (List.mem_cons_of_mem kv h2))]
      exact load_params_step_getattr_ne ext c b kv j (hj kv (List.mem_cons_self kv rest)) hdeis

/-- Claim C9: load_params only assigns attributes that already exist on a
TrainingConfig (the key list is unchanged), and every attribute whose
name is not the db_-stripped form of some input key keeps its prior
value; entries whose stripped key is not an existing attribute are
ignored. -/
theorem load_params_frame (ext : Externals) (cfg : Config)
    (params : List (String × Value)) (hkeys : keys cfg = keys default_config) :
    keys (TrainingConfig.load_params ext cfg params).1 = keys cfg
    ∧ ∀ j, (∀ kv ∈ params, stripDbKey kv.1 ≠ j) →
        getattr (TrainingConfig.load_params ext cfg params).1 j = getattr cfg j := by
  have hdeis : hasattr cfg "deis_train_scheduler" = false := by
    rw [hasattr_keys, hkeys, ← hasattr_keys]
    decide
  exact load_params_fold_frame ext params cfg false hdeis

/-- Witness for C9 at a concrete input: an unknown key db_frog is ignored
and the epoch attribute keeps its prior value. -/
theorem load_params_frame_witness :
    keys default_config = keys default_config
    ∧ keys (TrainingConfig.load_params sample_ext default_config
        [("db_frog", Value.vNum 1)]).1 = keys default_config
    ∧ getattr (TrainingConfig.load_params sample_ext default_config
        [("db_frog", Value.vNum 1)]).1 "epoch" = getattr default_config "epoch" := by
  refine ⟨rfl, (load_params_frame sample_ext default_config _ rfl).1, ?_⟩
  exact (load_params_frame sample_ext default_config _ rfl).2 "epoch"
    (by
      intro kv hkv
      rw [List.mem_singleton] at hkv
      subst hkv
      decide)

/-- Helper: a stored attribute is found by getattr. -/
theorem mem_keys_of_getattr_some (c : Config) (k : String) (v : Value)
    (h : getattr c k = some v) : k ∈ keys c := by
  induction c with
  | nil => simp [getattr, List.find?] at h
  | cons p rest ih =>
    by_cases hp : (p.1 == k) = true
    · simp only [keys, List.map_cons, List.mem_cons]
      exact Or.inl (eq_of_beq hp).symm
    · simp only [Bool.not_eq_true] at hp
      simp only [getattr, List.find?, hp] at h
      simp only [keys, List.map_cons, List.mem_cons]
      exact Or.inr (ih h)

/-- Helper: a stored attribute is reported by hasattr. -/
theorem hasattr_of_getattr_some (c : Config) (k : String) (v : Value)
    (h : getattr c k = some v) : hasattr c k = true := by
  induction c with
  | nil => simp [getattr, List.find?] at h
  | cons p rest ih =>
    by_cases hp : (p.1 == k) = true
    · simp [hasattr, List.any_cons, hp]
    · simp only [Bool.not_eq_true] at hp
      simp only [getattr, List.find?, hp] at h
      simp only [hasattr, List.any_cons, hp, Bool.false_or]
      exact ih h

/-- Helper: under unique keys every stored pair is what getattr returns
for its key. -/
theorem getattr_mem_nodup (c : Config) (hnd : (keys c).Nodup) :
    ∀ kv ∈ c, getattr c kv.1 = some kv.2 := by
  induction c with
  | nil => intro kv hkv; simp at hkv
  | cons p rest ih =>
    intro kv hkv
    simp only [keys, List.map_cons, List.nodup_cons] at hnd
    rcases List.mem_cons.mp hkv with e | hm
    · subst e
      simp [getattr, List.find?]
    · have hk : kv.1 ∈ keys rest := by
        unfold keys
        exact List.mem_map_of_mem Prod.fst hm
      have hne : (p.1 == kv.1) = false := by
        refine beq_eq_false_iff_ne.mpr fun e => ?_
        rw [e] at hnd
        exact hnd.1 hk
      simp only [getattr, List.find?, hne]
      exact ih hnd.2 kv hm

/-- Helper: rewriting an attribute to the value it already holds is the
identity on configurations with unique keys. -/
theorem setattr_self (c : Config) (k : String) (v : Value) (hnd : (keys c).Nodup)
    (h : getattr c k = some v) : setattr c k v = c := by
  unfold setattr
  rw [if_pos (hasattr_of_getattr_some c k v h)]
  induction c with
  | nil => rfl
  | cons p rest ih =>
    simp only [keys, List.map_cons, List.nodup_cons] at hnd
    by_cases hp : (p.1 == k) = true
    · have hval : v = p.2 := by
        simp only [getattr, List.find?, hp, Option.map_some] at h
        exact ((Option.some.injEq _ _).mp h).symm
      have hall : ∀ q ∈ p :: rest, (if (q.1 == k) = true then (q.1, v) else q) = q := by
        intro q hq
        rcases List.mem_cons.mp hq with e | hm
        · subst e
          simp [hp, hval]
        · have hqk : (q.1 == k) = false := by
            refine beq_eq_false_iff_ne.mpr fun e => ?_
            have hqm : q.1 ∈ List.map Prod.fst rest := List.mem_map_of_mem Prod.fst hm
            rw [e, ← eq_of_beq hp] at hqm
            exact hnd.1 hqm
          simp [hqk]
      rw [List.map_congr_left hall]
      simp
    · simp only [Bool.not_eq_true] at hp
      simp only [getattr, List.find?, hp] at h
      rw [List.map_cons, ih hnd.2 h]
      congr 1
      simp [hp]

/-- Helper: facts about the TrainingConfig field list that the migration
proofs need: the three table keys that are not fields, the absence of
the substring db_ in every field name, and uniqueness of field names. -/
theorem keys_default_facts :
    ("weight_decay" ∉ keys default_config)
    ∧ ("deis_train_scheduler" ∉ keys default_config)
    ∧ ("save_safetensors" ∉ keys default_config)
    ∧ ((keys default_config).all (fun s => !(strContains s "db_")) = true)
    ∧ (keys default_config).Nodup := by decide

/-- Helper: stripping is the identity on keys without the substring. -/
theorem stripDbKey_id (k : String) (h : strContains k "db_" = false) :
    stripDbKey k = k := by
  unfold stripDbKey
  rw [h]
  rfl

/-- Helper: on a configuration with the TrainingConfig field set whose
current values are non-legacy (attention is not flash_attention, the
scheduler value is among the scheduler names, the optimizer value is not
8Bit Adam), one loop iteration fed with one of its own stored pairs
rewrites the attribute to the value it already has, leaving the
configuration unchanged. -/
theorem load_params_step_identity (ext : Externals) (cfg : Config) (b : Bool)
    (kv : String × Value) (hkeys : keys cfg = keys default_config)
    (hmem : getattr cfg kv.1 = some kv.2)
    (hatt : ∀ v, getattr cfg "attention" = some v → pyEq v (.vStr "flash_attention") = false)
    (hsched : ∀ v, getattr cfg "scheduler" = some v → pyMem v ext.get_scheduler_names = true)
    (hopt : ∀ v, getattr cfg "optimizer" = some v → pyEq v (.vStr "8Bit Adam") = false) :
    (TrainingConfig.load_params_step ext (cfg, b) kv).1 = cfg := by
  have hndefault : kv.1 ∈ keys default_config := by
    rw [← hkeys]
    exact mem_keys_of_getattr_some cfg kv.1 kv.2 hmem
  have hnd : (keys cfg).Nodup := by
    rw [hkeys]
    exact keys_default_facts.2.2.2.2
  have hstrip : stripDbKey kv.1 = kv.1 := by
    refine stripDbKey_id kv.1 ?_
    have hall := keys_default_facts.2.2.2.1
    rw [List.all_eq_true] at hall
    have := hall kv.1 hndefault
    simpa using this
  rw [load_params_step_fst, hstrip]
  rw [if_pos (hasattr_of_getattr_some cfg kv.1 kv.2 hmem)]
  dsimp only
  have hafix : attention_fix ext kv.1 kv.2 = kv.2 := by
    by_cases ha : kv.1 = "attention"
    · rw [ha] at hmem ⊢
      simp [attention_fix, hatt kv.2 hmem]
    · exact attention_fix_ne ext kv.1 kv.2 ha
  rw [hafix]
  have hsfix : (scheduler_fix ext kv.1 b kv.2).2 = kv.2 := by
    by_cases hs : kv.1 = "scheduler"
    · rw [hs] at hmem ⊢
      simp [scheduler_fix, hsched kv.2 hmem]
    · rw [scheduler_fix_ne ext kv.1 b kv.2 hs]
  rw [hsfix]
  have hval : TrainingConfig.validate_param kv.1 kv.2 = (kv.1, kv.2) := by
    by_cases ho : kv.1 = "optimizer"
    · rw [ho] at hmem ⊢
      rw [validate_param_optimizer_eval]
      rw [hopt kv.2 hmem]
      rfl
    · refine validate_param_unmapped kv.1 kv.2 ?_ ?_ ho ?_
      · intro e
        rw [e] at hndefault
        exact keys_default_facts.1 hndefault
      · intro e
        rw [e] at hndefault
        exact keys_default_facts.2.1 hndefault
      · intro e
        rw [e] at hndefault
        exact keys_default_facts.2.2.1 hndefault
  rw [hval]
  exact setattr_self cfg kv.1 kv.2 hnd hmem

/-- Helper: feeding a non-legacy configuration its own stored pairs
leaves it unchanged, by induction over the pairs. -/
theorem load_params_fold_identity (ext : Externals) (cfg : Config)
    (hkeys : keys cfg = keys default_config)
    (hatt : ∀ v, getattr cfg "attention" = some v → pyEq v (.vStr "flash_attention") = false)
    (hsched : ∀ v, getattr cfg "scheduler" = some v → pyMem v ext.get_scheduler_names = true)
    (hopt : ∀ v, getattr cfg "optimizer" = some v → pyEq v (.vStr "8Bit Adam") = false) :
    ∀ (d : List (String × Value)) (b : Bool),
      (∀ kv ∈ d, getattr cfg kv.1 = some kv.2) →
      (d.foldl (TrainingConfig.load_params_step ext) (cfg, b)).1 = cfg := by
  intro d
  induction d with
  | nil => intro b _; rfl
  | cons kv rest ih =>
    intro b hd
    rw [List.foldl_cons]
    have hstep : TrainingConfig.load_params_step ext (cfg, b) kv
        = (cfg, (TrainingConfig.load_params_step ext (cfg, b) kv).2) := by
      have h1 := load_params_step_identity ext cfg b kv hkeys
        (hd kv (List.mem_cons_self kv rest)) hatt hsched hopt
      exact Prod.ext h1 rfl
    rw [hstep]
    exact ih _ (fun kv2 h2 => hd kv2 (List.mem_cons_of_mem kv h2))

/-- Claim C4 core: loading the dict of its own fields back into a
non-legacy configuration is the identity. -/
theorem load_params_self_identity (ext : Externals) (cfg : Config)
    (hkeys : keys cfg = keys default_config)
    (hatt : ∀ v, getattr cfg "attention" = some v → pyEq v (.vStr "flash_attention") = false)
    (hsched : ∀ v, getattr cfg "scheduler" = some v → pyMem v ext.get_scheduler_names = true)
    (hopt : ∀ v, getattr cfg "optimizer" = some v → pyEq v (.vStr "8Bit Adam") = false) :
    (TrainingConfig.load_params ext cfg cfg).1 = cfg := by
  have hnd : (keys cfg).Nodup := by
    rw [hkeys]
    exact keys_default_facts.2.2.2.2
  exact load_params_fold_identity ext cfg hkeys hatt hsched hopt cfg false
    (getattr_mem_nodup cfg hnd)

/-- Helper: on a posix model_dir the dict dumped by save is exactly the
configuration itself. -/
theorem save_dict_self (cfg : Config) (md : String)
    (hkeys : keys cfg = keys default_config)
    (hmd : getattr cfg "model_dir" = some (.vStr md))
    (hsep : strContains md "\\" = false) :
    (TrainingConfig.save cfg false).2 = cfg := by
  have hnd : (keys cfg).Nodup := by
    rw [hkeys]
    exact keys_default_facts.2.2.2.2
  have hstr : getattr_str cfg "model_dir" = md := by
    unfold getattr_str
    rw [hmd]
  unfold TrainingConfig.save
  dsimp only
  rw [hstr, hsep]
  simp only [Bool.false_eq_true, if_false]
  exact setattr_self cfg "model_dir" (.vStr md) hnd hmd

/-- Claim C4: a configuration with the TrainingConfig field set and
non-legacy values round-trips: the dict written by save(), loaded back
with load_from_file on the same model directory, reproduces the
configuration exactly (in particular the field set is unchanged), and a
second load of the same file yields the same fields as the first. -/
theorem save_load_roundtrip (ext : Externals)
    (fs : String → Except String String) (parse : String → Except String Config)
    (base_load : Config → Config) (cfg : Config) (model_dir contents md : String)
    (hkeys : keys cfg = keys default_config)
    (hatt : ∀ v, getattr cfg "attention" = some v → pyEq v (.vStr "flash_attention") = false)
    (hsched : ∀ v, getattr cfg "scheduler" = some v → pyMem v ext.get_scheduler_names = true)
    (hopt : ∀ v, getattr cfg "optimizer" = some v → pyEq v (.vStr "8Bit Adam") = false)
    (hmd : getattr cfg "model_dir" = some (.vStr md))
    (hsep : strContains md "\\" = false)
    (hbase : base_load cfg = cfg)
    (hfs : fs (os_path_join model_dir "db_config.json") = .ok contents)
    (hparse : parse contents = .ok (TrainingConfig.save cfg false).2) :
    TrainingConfig.load_from_file fs parse ext base_load cfg model_dir = (some cfg, [])
    ∧ (TrainingConfig.load_params ext cfg (TrainingConfig.save cfg false).2).1 = cfg
    ∧ (TrainingConfig.load_params ext
        (TrainingConfig.load_params ext cfg (TrainingConfig.save cfg false).2).1
        (TrainingConfig.save cfg false).2).1 = cfg := by
  have hdict : (TrainingConfig.save cfg false).2 = cfg :=
    save_dict_self cfg md hkeys hmd hsep
  have hself : (TrainingConfig.load_params ext cfg cfg).1 = cfg :=
    load_params_self_identity ext cfg hkeys hatt hsched hopt
  refine ⟨?_, ?_, ?_⟩
  · unfold TrainingConfig.load_from_file
    rw [hfs]
    dsimp only
    rw [hparse]
    dsimp only
    rw [hdict, hbase, hself]
  · rw [hdict]
    exact hself
  · rw [hdict, hself, hself]

/-- Witness for C4 at the default configuration with scheduler names
that include the schema choices. -/
theorem save_load_roundtrip_witness :
    TrainingConfig.load_from_file (fun _ => .ok "contents")
        (fun _ => .ok (TrainingConfig.save default_config false).2)
        ⟨["xformers"], ["ddim", "ddpm", "pndm"]⟩ id default_config "/mp/m"
      = (some default_config, [])
    ∧ (TrainingConfig.load_params ⟨["xformers"], ["ddim", "ddpm", "pndm"]⟩
        default_config (TrainingConfig.save default_config false).2).1
      = default_config := by
  have h := save_load_roundtrip ⟨["xformers"], ["ddim", "ddpm", "pndm"]⟩
    (fun _ => .ok "contents")
    (fun _ => .ok (TrainingConfig.save default_config false).2) id default_config
    "/mp/m" "contents" "" rfl
    (by
      intro v hv
      have e : getattr default_config "attention" = some (Value.vStr "xformers") := rfl
      rw [e, Option.some.injEq] at hv
      subst hv
      rfl)
    (by
      intro v hv
      have e : getattr default_config "scheduler" = some (Value.vStr "ddim") := rfl
      rw [e, Option.some.injEq] at hv
      subst hv
      rfl)
    (by
      intro v hv
      have e : getattr default_config "optimizer" = some (Value.vStr "8bit AdamW") := rfl
      rw [e, Option.some.injEq] at hv
      subst hv
      rfl)
    rfl rfl rfl rfl rfl
  exact ⟨h.1, h.2.1⟩

/-- Claim C7: in each of the three loaders, an error while opening the
config file or while parsing its JSON is caught, a message is logged,
and None is returned instead of the exception propagating. -/
theorem load_errors_return_none :
    (∀ (fs : String → Except String String) (parse : String → Except String Config)
        (ext : Externals) (mp mn e : String), (mn == "") = false →
        fs (from_file_config_path mp mn) = .error e →
        from_file fs parse ext mp mn = (none, ["Exception loading config: " ++ e]))
    ∧ (∀ (fs : String → Except String String) (parse : String → Except String Config)
        (ext : Externals) (mp mn s e : String), (mn == "") = false →
        fs (from_file_config_path mp mn) = .ok s → parse s = .error e →
        from_file fs parse ext mp mn = (none, ["Exception loading config: " ++ e]))
    ∧ (∀ (fs : String → Except String String) (parse : String → Except String Config)
        (ext : Externals) (base_load : Config → Config) (self : Config) (md e : String),
        fs (os_path_join md "db_config.json") = .error e →
        TrainingConfig.load_from_file fs parse ext base_load self md
          = (none, ["Exception loading config: " ++ e]))
    ∧ (∀ (fs : String → Except String String) (parse : String → Except String Config)
        (ext : Externals) (base_load : Config → Config) (self : Config) (md s e : String),
        fs (os_path_join md "db_config.json") = .ok s → parse s = .error e →
        TrainingConfig.load_from_file fs parse ext base_load self md
          = (none, ["Exception loading config: " ++ e]))
    ∧ (∀ (fs : String → Except String String) (parse : String → Except String Config)
        (ext : Externals) (mp : String) (self : Config) (e : String),
        fs (os_path_join (os_path_join mp (getattr_str self "model_name"))
            "db_config.json") = .error e →
        TrainingConfig.refresh fs parse ext mp self
          = (none, ["Exception loading config: " ++ e]))
    ∧ (∀ (fs : String → Except String String) (parse : String → Except String Config)
        (ext : Externals) (mp : String) (self : Config) (s e : String),
        fs (os_path_join (os_path_join mp (getattr_str self "model_name"))
            "db_config.json") = .ok s → parse s = .error e →
        TrainingConfig.refresh fs parse ext mp self
          = (none, ["Exception loading config: " ++ e])) := by
  refine ⟨?_, ?_, ?_, ?_, ?_, ?_⟩
  · intro fs parse ext mp mn e hmn hfs
    unfold from_file
    rw [hmn, hfs]
    rfl
  · intro fs parse ext mp mn s e hmn hfs hparse
    unfold from_file
    rw [hmn, hfs]
    dsimp only
    rw [hparse]
    rfl
  · intro fs parse ext base_load self md e hfs
    unfold TrainingConfig.load_from_file
    rw [hfs]
  · intro fs parse ext base_load self md s e hfs hparse
    unfold TrainingConfig.load_from_file
    rw [hfs]
    dsimp only
    rw [hparse]
  · intro fs parse ext mp self e hfs
    unfold TrainingConfig.refresh
    rw [hfs]
  · intro fs parse ext mp self s e hfs hparse
    unfold TrainingConfig.refresh
    rw [hfs]
    dsimp only
    rw [hparse]

/-- Witness for C7: a file system that fails to open and a parser that
fails on a present file, both observed as logged None results. -/
theorem load_errors_return_none_witness :
    ((("m" : String) == "") = false)
    ∧ from_file (fun _ => .error "boom") (fun _ => .ok default_config) sample_ext "/mp" "m"
        = (none, ["Exception loading config: boom"])
    ∧ TrainingConfig.load_from_file (fun _ => .ok "junk") (fun _ => .error "bad json")
        sample_ext id default_config "/mp/m" = (none, ["Exception loading config: bad json"])
    ∧ TrainingConfig.refresh (fun _ => .error "gone") (fun _ => .ok default_config)
        sample_ext "/mp" default_config = (none, ["Exception loading config: gone"]) := by
  refine ⟨rfl, ?_, ?_, ?_⟩
  · exact load_errors_return_none.1 (fun _ => .error "boom") (fun _ => .ok default_config)
      sample_ext "/mp" "m" "boom" rfl rfl
  · exact load_errors_return_none.2.2.2.1 (fun _ => .ok "junk") (fun _ => .error "bad json")
      sample_ext id default_config "/mp/m" "junk" "bad json" rfl rfl
  · exact load_errors_return_none.2.2.2.2.1 (fun _ => .error "gone")
      (fun _ => .ok default_config) sample_ext "/mp" default_config "gone" rfl

/-- Claim C8 (code_bug evidence): save writes
modelDir/db_config.json (and with backup=True
modelDir/backups/db_config_revision.json), which matches the claim, but
the module-level from_file loader reads train_config.json from the model
directory, a file the save path never writes, contradicting the claimed
db_config.json location. -/
theorem config_paths_mismatch :
    (TrainingConfig.save c8_cfg false).1 = "/models/dreambooth/sample/db_config.json"
    ∧ (TrainingConfig.save c8_cfg true).1
        = "/models/dreambooth/sample/backups/db_config_0.json"
    ∧ from_file_config_path "/models/dreambooth" "sample"
        = "/models/dreambooth/sample/train_config.json"
    ∧ from_file_config_path "/models/dreambooth" "sample"
        ≠ "/models/dreambooth/sample/db_config.json" := by
  refine ⟨rfl, rfl, rfl, ?_⟩
  decide

/-- Claim C1 (code_bug evidence): with an empty stored list and required
= 1 the method returns no concepts instead of one padded empty concept,
and with three valid stored concepts and required = 1 it returns five
concepts (the sign of missing is inverted, so it pads when there are too
many and never truncates). -/
theorem concepts_count_mismatch :
    TrainingConfig.concepts c1_env "Default" "" "/mp/m" [] 1 = []
    ∧ (TrainingConfig.concepts c1_env "Default" "" "/mp/m" [[], [], []] 1).length = 5 := ⟨rfl, rfl⟩

/-- Claim C10: sanitize_name returns exactly the subsequence of the input
characters that are alphanumeric or one of period, underscore, hyphen,
space, in order, and is therefore idempotent. -/
theorem sanitize_name_spec (s : String) :
    (sanitize_name s).data
      = s.data.filter (fun x => x.isAlphanum || "._- ".data.contains x)
    ∧ (sanitize_name s).data.Sublist s.data
    ∧ sanitize_name (sanitize_name s) = sanitize_name s := by
  refine ⟨rfl, List.filter_sublist s.data, ?_⟩
  show String.mk (List.filter _ (List.filter _ s.data)) = _
  rw [List.filter_filter]
  simp only [Bool.and_self]
  rfl
